import Mathlib

/-!
Verification of the cloudauth / monitor-alert excerpt of
terraform-provider-sysdig.

The excerpt contains three Go units:
* `sysdig/internal/client/v2/cloudauth.go` — the CloudauthAccountSecure
  HTTP client (Create/Get/Update/Delete with status-code checks);
* the `sysdig_monitor_alert_v2_metric` resource — lifecycle handlers and
  the schema↔struct mappers `buildAlertV2MetricStruct` /
  `updateAlertV2MetricState`;
* an acceptance test (not modelled; it exercises the external SDK).

Machine `float64` values (thresholds) are modelled as `Rat`: the code
never performs arithmetic on them, it only copies them, so the carrier
only needs decidable equality. Go errors are modelled by the inductive
`GoError`; a Go `(T, error)` return becomes `Except GoError T`, whose
`error` case simultaneously captures "non-nil error" and "nil result".
-/

/-! ## Part 1: the cloudauth v2 client -/

/-- Go errors. `msg` models an error built from a plain string,
`apiError` models the typed error the client derives from an HTTP
response (status code plus body), `wrapped` models
`fmt.Errorf("...: %w", inner)`. -/
inductive GoError where
  | msg (s : String)
  | apiError (status : Nat) (body : String)
  | wrapped (context : String) (inner : GoError)
deriving DecidableEq, Repr

/-- Modelled from the spec: the `CloudauthAccountSecure` struct is defined
outside this excerpt; the spec describes entities as "flat request/response
structs mirroring the remote API schema" whose "identity is a server-assigned
ID". Its exact field set is irrelevant to the claims, which only need a
carrier with decidable equality. -/
structure CloudauthAccountSecure where
  accountId : String
  providerName : String
  enabled : Bool
deriving DecidableEq, Repr

/-- A response body: either well-formed JSON for a `CloudauthAccountSecure`
(the case the generic `Unmarshal` decodes) or raw text that does not decode.
The `Unmarshal` helper itself is outside this excerpt. -/
inductive Body where
  | json (acct : CloudauthAccountSecure)
  | raw (text : String)
deriving DecidableEq, Repr

/-- Render a body as the raw text a Go `http.Response.Body` carries. -/
def Body.text : Body → String
  | .json acct => "json:" ++ acct.accountId ++ "/" ++ acct.providerName
  | .raw t => t

/-- An HTTP response: status code plus body. -/
structure HTTPResponse where
  statusCode : Nat
  body : Body
deriving DecidableEq, Repr

def StatusOK : Nat := 200
def StatusCreated : Nat := 201
def StatusNoContent : Nat := 204
def StatusNotFound : Nat := 404

/-- HTTP methods used by the client. -/
inductive Method where
  | get
  | post
  | put
  | delete
deriving DecidableEq, Repr

/-- Modelled from the spec: the `Requester` collaborator ("issues signed HTTP
requests, returns raw responses. Not implemented here."). It receives the
method, the URL and the optional marshalled payload, and yields either a
transport error or a raw response. -/
def Requester : Type := Method → String → Option Body → Except GoError HTTPResponse

/-- Modelled from the spec: the client holds its configuration
(`client.config.url`) and its requester. -/
structure Client where
  url : String
  requester : Requester

/-- Modelled from the spec: `Marshal` serializes the flat account struct to
JSON. Marshalling a flat struct of strings and booleans cannot fail, so the
`Except` mirrors only the Go signature shape used at the call sites. -/
def Marshal (cloudAccount : CloudauthAccountSecure) : Except GoError Body :=
  Except.ok (Body.json cloudAccount)

/-- Modelled from the spec: `Unmarshal` deserializes the response body
into the target struct, failing on a body that is not well-formed JSON
for it. -/
def Unmarshal (body : Body) : Except GoError CloudauthAccountSecure :=
  match body with
  | .json acct => Except.ok acct
  | .raw t => Except.error (GoError.msg ("invalid character in " ++ t))

/-- Modelled from the spec: `client.ErrorFromResponse` "returns a typed
error derived from the response body on mismatch". -/
def ErrorFromResponse (response : HTTPResponse) : GoError :=
  GoError.apiError response.statusCode response.body.text

/-- `cloudauthAccountsPath = "%s/api/cloudauth/v1/accounts"`. -/
def cloudauthAccountsPath : String := "%s/api/cloudauth/v1/accounts"

/-- `cloudauthAccountPath = "%s/api/cloudauth/v1/accounts/%s"`. -/
def cloudauthAccountPath : String := "%s/api/cloudauth/v1/accounts/%s"

/-- Substitute each `%s` verb of the format (given as its character list)
by the next argument in order, as `fmt.Sprintf` does when the argument
count matches the verb count. -/
def sprintfSAux : List Char → List String → List Char
  | [], _ => []
  | '%' :: 's' :: rest, arg :: args => arg.data ++ sprintfSAux rest args
  | c :: rest, args => c :: sprintfSAux rest args

/-- `fmt.Sprintf` restricted to `%s` verbs, which is all the source uses. -/
def sprintfS (fmt : String) (args : List String) : String :=
  ⟨sprintfSAux fmt.data args⟩

/-- `client.cloudauthAccountsURL()`. -/
def cloudauthAccountsURL (client : Client) : String :=
  sprintfS cloudauthAccountsPath [client.url]

/-- `client.cloudauthAccountURL(accountID)`. -/
def cloudauthAccountURL (client : Client) (accountID : String) : String :=
  sprintfS cloudauthAccountPath [client.url, accountID]

/-- `(client *Client) CreateCloudauthAccountSecure`. -/
def CreateCloudauthAccountSecure (client : Client)
    (cloudAccount : CloudauthAccountSecure) :
    Except GoError CloudauthAccountSecure :=
  match Marshal cloudAccount with
  | .error err => Except.error err
  | .ok payload =>
    match client.requester Method.post (cloudauthAccountsURL client) (some payload) with
    | .error err => Except.error err
    | .ok response =>
      if response.statusCode ≠ StatusOK ∧ response.statusCode ≠ StatusCreated then
        Except.error (ErrorFromResponse response)
      else
        Unmarshal response.body

/-- `(client *Client) GetCloudauthAccountSecure`. -/
def GetCloudauthAccountSecure (client : Client) (accountID : String) :
    Except GoError CloudauthAccountSecure :=
  match client.requester Method.get (cloudauthAccountURL client accountID) none with
  | .error err => Except.error err
  | .ok response =>
    if response.statusCode ≠ StatusOK then
      Except.error (ErrorFromResponse response)
    else
      Unmarshal response.body

/-- `(client *Client) DeleteCloudauthAccountSecure`. -/
def DeleteCloudauthAccountSecure (client : Client) (accountID : String) :
    Except GoError Unit :=
  match client.requester Method.delete (cloudauthAccountURL client accountID) none with
  | .error err => Except.error err
  | .ok response =>
    if response.statusCode ≠ StatusNoContent ∧ response.statusCode ≠ StatusOK then
      Except.error (ErrorFromResponse response)
    else
      Except.ok ()

/-- `(client *Client) UpdateCloudauthAccountSecure`. -/
def UpdateCloudauthAccountSecure (client : Client) (accountID : String)
    (cloudAccount : CloudauthAccountSecure) :
    Except GoError CloudauthAccountSecure :=
  match Marshal cloudAccount with
  | .error err => Except.error err
  | .ok payload =>
    match client.requester Method.put (cloudauthAccountURL client accountID) (some payload) with
    | .error err => Except.error err
    | .ok response =>
      if response.statusCode ≠ StatusOK then
        Except.error (ErrorFromResponse response)
      else
        Unmarshal response.body

/-- The post-request tail of `CreateCloudauthAccountSecure`: transport
errors propagate, a status outside 200/201 yields the typed response
error, otherwise the body is unmarshalled. -/
def createResponseHandler (r : Except GoError HTTPResponse) :
    Except GoError CloudauthAccountSecure :=
  match r with
  | .error err => Except.error err
  | .ok response =>
    if response.statusCode ≠ StatusOK ∧ response.statusCode ≠ StatusCreated then
      Except.error (ErrorFromResponse response)
    else
      Unmarshal response.body

/-- The post-request tail shared by `GetCloudauthAccountSecure` and
`UpdateCloudauthAccountSecure`: only status 200 is accepted. -/
def getUpdateResponseHandler (r : Except GoError HTTPResponse) :
    Except GoError CloudauthAccountSecure :=
  match r with
  | .error err => Except.error err
  | .ok response =>
    if response.statusCode ≠ StatusOK then
      Except.error (ErrorFromResponse response)
    else
      Unmarshal response.body

/-- The post-request tail of `DeleteCloudauthAccountSecure`: statuses 204
and 200 are accepted. -/
def deleteResponseHandler (r : Except GoError HTTPResponse) :
    Except GoError Unit :=
  match r with
  | .error err => Except.error err
  | .ok response =>
    if response.statusCode ≠ StatusNoContent ∧ response.statusCode ≠ StatusOK then
      Except.error (ErrorFromResponse response)
    else
      Except.ok ()

/-- Concrete account used by witnesses. -/
def testAccount : CloudauthAccountSecure :=
  { accountId := "a-1", providerName := "gcp", enabled := true }

/-- A client whose requester always answers HTTP 500 with body `boom`. -/
def errorClient : Client :=
  { url := "https://sysdig.test"
    requester := fun _ _ _ => Except.ok ⟨500, Body.raw "boom"⟩ }

/-- A client whose requester always answers HTTP 200 with a decodable body. -/
def okClient : Client :=
  { url := "https://sysdig.test"
    requester := fun _ _ _ => Except.ok ⟨200, Body.json testAccount⟩ }

/-- A client whose requester always answers HTTP 404. -/
def notFoundClient : Client :=
  { url := "https://sysdig.test"
    requester := fun _ _ _ => Except.ok ⟨404, Body.raw "not found"⟩ }

/-- C1: every CloudauthAccountSecure client operation receiving a response
whose status code lies outside its accepted set (200/201 for Create, 200
for Get and Update, 200/204 for Delete) returns the error derived from the
response and no result struct; for codes inside the set it proceeds to
unmarshal the body (Delete succeeds) without an error from the status
check. -/
theorem cloudauth_client_status_validation (c : Client)
    (acct : CloudauthAccountSecure) (aid : String) (resp : HTTPResponse)
    (hreq : ∀ m u p, c.requester m u p = Except.ok resp) :
    (resp.statusCode ≠ StatusOK ∧ resp.statusCode ≠ StatusCreated →
      CreateCloudauthAccountSecure c acct = Except.error (ErrorFromResponse resp)) ∧
    (resp.statusCode = StatusOK ∨ resp.statusCode = StatusCreated →
      CreateCloudauthAccountSecure c acct = Unmarshal resp.body) ∧
    (resp.statusCode ≠ StatusOK →
      GetCloudauthAccountSecure c aid = Except.error (ErrorFromResponse resp)) ∧
    (resp.statusCode = StatusOK →
      GetCloudauthAccountSecure c aid = Unmarshal resp.body) ∧
    (resp.statusCode ≠ StatusOK →
      UpdateCloudauthAccountSecure c aid acct = Except.error (ErrorFromResponse resp)) ∧
    (resp.statusCode = StatusOK →
      UpdateCloudauthAccountSecure c aid acct = Unmarshal resp.body) ∧
    (resp.statusCode ≠ StatusNoContent ∧ resp.statusCode ≠ StatusOK →
      DeleteCloudauthAccountSecure c aid = Except.error (ErrorFromResponse resp)) ∧
    (resp.statusCode = StatusNoContent ∨ resp.statusCode = StatusOK →
      DeleteCloudauthAccountSecure c aid = Except.ok ()) := by
  refine ⟨fun h => ?_, fun h => ?_, fun h => ?_, fun h => ?_,
          fun h => ?_, fun h => ?_, fun h => ?_, fun h => ?_⟩ <;>
    simp only [CreateCloudauthAccountSecure, GetCloudauthAccountSecure,
      UpdateCloudauthAccountSecure, DeleteCloudauthAccountSecure, Marshal, hreq]
  · rw [if_pos h]
  · rcases h with h | h <;> rw [if_neg] <;> simp [h]
  · rw [if_pos h]
  · rw [if_neg]; simp [h]
  · rw [if_pos h]
  · rw [if_neg]; simp [h]
  · rw [if_pos h]
  · rcases h with h | h <;> rw [if_neg] <;> simp [h]

/-- Witness for C1 at concrete clients: a 500 response makes Create fail
with the typed response error, and a 200 response makes Get return the
decoded account. -/
theorem cloudauth_client_status_validation_witness :
    CreateCloudauthAccountSecure errorClient testAccount =
      Except.error (GoError.apiError 500 "boom") ∧
    GetCloudauthAccountSecure okClient "a-1" = Except.ok testAccount := by
  have h5 := cloudauth_client_status_validation errorClient testAccount "a-1"
    ⟨500, Body.raw "boom"⟩ (fun _ _ _ => rfl)
  have h2 := cloudauth_client_status_validation okClient testAccount "a-1"
    ⟨200, Body.json testAccount⟩ (fun _ _ _ => rfl)
  exact ⟨h5.1 (by decide), (h2.2.2.2.1 rfl).trans rfl⟩

/-- C5: Delete on a 404 response returns the typed error derived from the
response; 404 gets no special-case treatment as already deleted. -/
theorem delete_404_errors (c : Client) (aid : String) (resp : HTTPResponse)
    (hreq : c.requester Method.delete (cloudauthAccountURL c aid) none = Except.ok resp)
    (h404 : resp.statusCode = StatusNotFound) :
    DeleteCloudauthAccountSecure c aid = Except.error (ErrorFromResponse resp) := by
  simp only [DeleteCloudauthAccountSecure, hreq]
  rw [if_pos]
  rw [h404]
  exact ⟨by decide, by decide⟩

/-- Witness for C5 at a concrete client answering 404. -/
theorem delete_404_errors_witness :
    DeleteCloudauthAccountSecure notFoundClient "a-1" =
      Except.error (GoError.apiError 404 "not found") :=
  delete_404_errors notFoundClient "a-1" ⟨404, Body.raw "not found"⟩ rfl rfl

/-- C7: the client addresses `{baseURL}/api/cloudauth/v1/accounts` for the
collection and `{baseURL}/api/cloudauth/v1/accounts/{id}` for the item, and
each operation factors as its response handler applied to exactly one
requester call with the right verb and payload: POST with the marshalled
JSON body for Create, GET for Get, PUT with the marshalled JSON body for
Update, DELETE for Delete. -/
theorem cloudauth_endpoints_and_verbs (c : Client) (aid : String)
    (acct : CloudauthAccountSecure) :
    cloudauthAccountsURL c = c.url ++ "/api/cloudauth/v1/accounts" ∧
    cloudauthAccountURL c aid = c.url ++ "/api/cloudauth/v1/accounts/" ++ aid ∧
    CreateCloudauthAccountSecure c acct =
      createResponseHandler
        (c.requester Method.post (cloudauthAccountsURL c) (some (Body.json acct))) ∧
    GetCloudauthAccountSecure c aid =
      getUpdateResponseHandler
        (c.requester Method.get (cloudauthAccountURL c aid) none) ∧
    UpdateCloudauthAccountSecure c aid acct =
      getUpdateResponseHandler
        (c.requester Method.put (cloudauthAccountURL c aid) (some (Body.json acct))) ∧
    DeleteCloudauthAccountSecure c aid =
      deleteResponseHandler
        (c.requester Method.delete (cloudauthAccountURL c aid) none) := by
  refine ⟨rfl, ?_, rfl, rfl, rfl, rfl⟩
  have h2 : cloudauthAccountURL c aid =
      String.mk (c.url.data ++
        ("/api/cloudauth/v1/accounts/".data ++ (aid.data ++ []))) := rfl
  rw [h2, List.append_nil, ← List.append_assoc]
  rfl

/-! ## Part 2: the sysdig_monitor_alert_v2_metric resource -/

/-- Modelled from the spec: the common part of every alert struct
(`monitor.AlertV2Common`, defined outside this excerpt). The spec
describes alerts as flat structs whose "identity is a server-assigned ID,
populated only after creation"; the resource code reads and writes the
embedded `ID` and sets `Type` (`typ` here, `type` being reserved). -/
structure AlertV2Common where
  ID : Int
  name : String
  typ : String
deriving DecidableEq, Repr

/-- `monitor.AlertV2AlertType_Manual`, the alert type the builder sets. -/
def AlertV2AlertType_Manual : String := "MANUAL"

/-- The `Metric` field of the config: the resolved label descriptor
identity (`config.Metric.ID` / `config.Metric.PublicID`). -/
structure MetricRef where
  ID : String
  PublicID : String
deriving DecidableEq, Repr

/-- Modelled from the spec: a label descriptor is "a remote API object
describing a metric's identity and display name". -/
structure LabelDescriptor where
  ID : String
  PublicID : String
deriving DecidableEq, Repr

/-- The lookup result; the Go code reads
`labelDescriptorV3.LabelDescriptor.ID` and `.PublicID`. -/
structure LabelDescriptorV3 where
  labelDescriptor : LabelDescriptor
deriving DecidableEq, Repr

/-- Modelled from the spec: the scope/segmentation part of the config,
handled by `buildScopedSegmentedConfigStruct` outside this excerpt. Its
contents are opaque to the metric-specific claims. -/
structure ScopedSegmentedConfig where
  scope : String
deriving DecidableEq, Repr

/-- `monitor.AlertV2ConfigMetric`. A Go `*float64` warning threshold is
`Option Rat` (`none` = nil); the zero value of `WarningConditionOperator`
is the empty string. -/
structure AlertV2ConfigMetric where
  scopedSegmentedConfig : ScopedSegmentedConfig
  conditionOperator : String
  threshold : Rat
  warningThreshold : Option Rat
  warningConditionOperator : String
  timeAggregation : String
  groupAggregation : String
  metric : MetricRef
  noDataBehaviour : String
deriving DecidableEq, Repr

/-- `monitor.AlertV2Metric`: the embedded `AlertV2Common` plus the metric
config. -/
structure AlertV2Metric where
  common : AlertV2Common
  config : AlertV2ConfigMetric
deriving DecidableEq, Repr

/-- The declarative configuration / state (`*schema.ResourceData`)
restricted to the fields this resource reads and writes. `id` is
`d.Id()`; `warning_threshold` is optional, `none` meaning omitted
(`d.GetOk` reports absence). `name` and `scope` stand for the common and
scoped/segmented field groups handled outside this excerpt. -/
structure ResourceData where
  id : String
  name : String
  scope : String
  op : String
  threshold : Rat
  warning_threshold : Option Rat
  metric : String
  time_aggregation : String
  group_aggregation : String
  no_data_behaviour : String
deriving DecidableEq, Repr

/-- `monitor.SysdigMonitorClient` restricted to the methods the resource
calls, each modelled as a function to an `Except` outcome. -/
structure SysdigMonitorClient where
  GetLabelDescriptor : String → Except GoError LabelDescriptorV3
  CreateAlertV2Metric : AlertV2Metric → Except GoError AlertV2Metric
  UpdateAlertV2Metric : AlertV2Metric → Except GoError AlertV2Metric
  GetAlertV2MetricById : Int → Except GoError AlertV2Metric
  DeleteAlertV2Metric : Int → Except GoError Unit

/-- Modelled from the spec: `buildAlertV2CommonStruct` (outside this
excerpt) copies the common declarative fields into the struct. Per the
spec the schema mapper performs "at most one dependent lookup (metric
name → descriptor)", so the common builder is a pure copy; the
server-assigned ID starts at its zero value. -/
def buildAlertV2CommonStruct (d : ResourceData) : AlertV2Common :=
  { ID := 0, name := d.name, typ := "" }

/-- Modelled from the spec: `buildScopedSegmentedConfigStruct` (outside
this excerpt) copies the scope/segmentation fields; a pure copy by the
same spec clause as `buildAlertV2CommonStruct`. -/
def buildScopedSegmentedConfigStruct (d : ResourceData) : ScopedSegmentedConfig :=
  { scope := d.scope }

/-- Modelled from the spec: `updateAlertV2CommonState` (outside this
excerpt), the "inverse operation, copying API response fields back into
Terraform state" for the common fields. -/
def updateAlertV2CommonState (d : ResourceData) (common : AlertV2Common) :
    ResourceData :=
  { d with name := common.name }

/-- Modelled from the spec: `updateScopedSegmentedConfigState` (outside
this excerpt), the inverse copy for the scope/segmentation fields. -/
def updateScopedSegmentedConfigState (d : ResourceData)
    (cfg : ScopedSegmentedConfig) : ResourceData :=
  { d with scope := cfg.scope }

/-- `buildAlertV2MetricStruct`: builds the request struct from the
configuration. Fields are populated in source order; the warning pair is
set only when `warning_threshold` is present; the metric name is resolved
through `client.GetLabelDescriptor`, whose error is wrapped with the
metric name and returned with no alert struct. -/
def buildAlertV2MetricStruct (d : ResourceData) (client : SysdigMonitorClient) :
    Except GoError AlertV2Metric :=
  let alertV2Common := buildAlertV2CommonStruct d
  let alertV2Common := { alertV2Common with typ := AlertV2AlertType_Manual }
  let scopedSegmentedConfig := buildScopedSegmentedConfigStruct d
  let conditionOperator := d.op
  let threshold := d.threshold
  let warning : Option Rat × String :=
    match d.warning_threshold with
    | some warningThreshold => (some warningThreshold, conditionOperator)
    | none => (none, "")
  let timeAggregation := d.time_aggregation
  let groupAggregation := d.group_aggregation
  let metric := d.metric
  match client.GetLabelDescriptor metric with
  | .error err =>
    Except.error (GoError.wrapped ("error getting descriptor for label " ++ metric) err)
  | .ok labelDescriptorV3 =>
    Except.ok
      { common := alertV2Common
        config :=
          { scopedSegmentedConfig := scopedSegmentedConfig
            conditionOperator := conditionOperator
            threshold := threshold
            warningThreshold := warning.1
            warningConditionOperator := warning.2
            timeAggregation := timeAggregation
            groupAggregation := groupAggregation
            metric := { ID := labelDescriptorV3.labelDescriptor.ID
                        PublicID := labelDescriptorV3.labelDescriptor.PublicID }
            noDataBehaviour := d.no_data_behaviour } }

/-- `updateAlertV2MetricState`: copies the response struct back into
state. `warning_threshold` is written only when the response carries a
non-nil `WarningThreshold`. -/
def updateAlertV2MetricState (d : ResourceData) (alert : AlertV2Metric) :
    ResourceData :=
  let d := updateAlertV2CommonState d alert.common
  let d := updateScopedSegmentedConfigState d alert.config.scopedSegmentedConfig
  let d := { d with op := alert.config.conditionOperator }
  let d := { d with threshold := alert.config.threshold }
  let d :=
    match alert.config.warningThreshold with
    | some wt => { d with warning_threshold := some wt }
    | none => d
  let d := { d with time_aggregation := alert.config.timeAggregation }
  let d := { d with group_aggregation := alert.config.groupAggregation }
  let d := { d with metric := alert.config.metric.PublicID }
  { d with no_data_behaviour := alert.config.noDataBehaviour }

/-- Parse a run of decimal digits into an accumulator; any non-digit
makes the whole parse fail, as `strconv.Atoi` does. -/
def parseDigits : List Char → Nat → Option Nat
  | [], acc => some acc
  | c :: cs, acc =>
    if c.isDigit then parseDigits cs (acc * 10 + (c.toNat - Char.toNat '0'))
    else none

/-- The syntax `strconv.Atoi` accepts: an optional sign followed by at
least one decimal digit. -/
def parseGoInt (s : String) : Option Int :=
  match s.data with
  | [] => none
  | '-' :: cs =>
    match cs with
    | [] => none
    | _ => (parseDigits cs 0).map (fun n => -(n : Int))
  | '+' :: cs =>
    match cs with
    | [] => none
    | _ => (parseDigits cs 0).map (fun n => (n : Int))
  | cs => (parseDigits cs 0).map (fun n => (n : Int))

/-- `strconv.Atoi` with its Go-style syntax error. -/
def Atoi (s : String) : Except GoError Int :=
  match parseGoInt s with
  | some n => Except.ok n
  | none =>
    Except.error (GoError.msg ("strconv.Atoi: parsing \"" ++ s ++ "\": invalid syntax"))

/-- `strconv.Atoi` when the caller discards the error
(`a.ID, _ = strconv.Atoi(d.Id())`): Go yields 0 alongside a syntax
error. -/
def atoiOrZero (s : String) : Int :=
  match parseGoInt s with
  | some n => n
  | none => 0

/-- The observable outcome of a lifecycle handler: the final resource
state (including the resource ID) and the returned diagnostics. `none`
models nil diagnostics; `some e` models `diag.FromErr(e)`. -/
structure HandlerResult where
  d : ResourceData
  diags : Option GoError
deriving DecidableEq, Repr

/-- `resourceSysdigMonitorAlertV2MetricCreate`. The parameter `i` models
`i.(SysdigClients).sysdigMonitorClient()`, the client acquisition defined
outside this excerpt, which may itself fail. -/
def resourceSysdigMonitorAlertV2MetricCreate (d : ResourceData)
    (i : Except GoError SysdigMonitorClient) : HandlerResult :=
  match i with
  | .error err => ⟨d, some err⟩
  | .ok client =>
    match buildAlertV2MetricStruct d client with
    | .error err => ⟨d, some err⟩
    | .ok a =>
      match client.CreateAlertV2Metric a with
      | .error err => ⟨d, some err⟩
      | .ok aCreated =>
        let d := { d with id := toString aCreated.common.ID }
        ⟨updateAlertV2MetricState d aCreated, none⟩

/-- `resourceSysdigMonitorAlertV2MetricRead`. On a client error from
`GetAlertV2MetricById` the source clears the ID and returns nil. -/
def resourceSysdigMonitorAlertV2MetricRead (d : ResourceData)
    (i : Except GoError SysdigMonitorClient) : HandlerResult :=
  match i with
  | .error err => ⟨d, some err⟩
  | .ok client =>
    match Atoi d.id with
    | .error err => ⟨d, some err⟩
    | .ok idNum =>
      match client.GetAlertV2MetricById idNum with
      | .error _ => ⟨{ d with id := "" }, none⟩
      | .ok a => ⟨updateAlertV2MetricState d a, none⟩

/-- `resourceSysdigMonitorAlertV2MetricUpdate`. The source discards the
`strconv.Atoi` error (`a.ID, _ = strconv.Atoi(d.Id())`). -/
def resourceSysdigMonitorAlertV2MetricUpdate (d : ResourceData)
    (i : Except GoError SysdigMonitorClient) : HandlerResult :=
  match i with
  | .error err => ⟨d, some err⟩
  | .ok client =>
    match buildAlertV2MetricStruct d client with
    | .error err => ⟨d, some err⟩
    | .ok a =>
      let a := { a with common := { a.common with ID := atoiOrZero d.id } }
      match client.UpdateAlertV2Metric a with
      | .error err => ⟨d, some err⟩
      | .ok aUpdated => ⟨updateAlertV2MetricState d aUpdated, none⟩

/-- `resourceSysdigMonitorAlertV2MetricDelete`. -/
def resourceSysdigMonitorAlertV2MetricDelete (d : ResourceData)
    (i : Except GoError SysdigMonitorClient) : HandlerResult :=
  match i with
  | .error err => ⟨d, some err⟩
  | .ok client =>
    match Atoi d.id with
    | .error err => ⟨d, some err⟩
    | .ok idNum =>
      match client.DeleteAlertV2Metric idNum with
      | .error err => ⟨d, some err⟩
      | .ok _ => ⟨d, none⟩

/-- Concrete metric-alert configuration used by witnesses: the spec's
scenario operator and threshold with a warning threshold present. -/
def sampleConfig : ResourceData :=
  { id := ""
    name := "high cpu"
    scope := "agent.id = 1"
    op := ">"
    threshold := 90
    warning_threshold := some 70
    metric := "cpu.used.percent"
    time_aggregation := "avg"
    group_aggregation := "max"
    no_data_behaviour := "DO_NOTHING" }

/-- The spec's scenario configuration: `op = ">"`, `threshold = 90.0`,
`warning_threshold` omitted. -/
def sampleConfigNoWarning : ResourceData :=
  { sampleConfig with warning_threshold := none }

/-- A descriptor whose public ID is the looked-up metric name, as the
remote lookup returns for a known metric. -/
def sampleDescriptor : LabelDescriptorV3 :=
  { labelDescriptor := { ID := "ld-1", PublicID := "cpu.used.percent" } }

/-- A monitor client whose calls all succeed. -/
def sampleMonitorClient : SysdigMonitorClient :=
  { GetLabelDescriptor := fun _ => Except.ok sampleDescriptor
    CreateAlertV2Metric := fun a =>
      Except.ok { a with common := { a.common with ID := 42 } }
    UpdateAlertV2Metric := fun a => Except.ok a
    GetAlertV2MetricById := fun _ =>
      Except.ok { common := { ID := 7, name := "high cpu", typ := "MANUAL" }
                  config := { scopedSegmentedConfig := { scope := "agent.id = 1" }
                              conditionOperator := ">"
                              threshold := 90
                              warningThreshold := some 70
                              warningConditionOperator := ">"
                              timeAggregation := "avg"
                              groupAggregation := "max"
                              metric := { ID := "ld-1", PublicID := "cpu.used.percent" }
                              noDataBehaviour := "DO_NOTHING" } }
    DeleteAlertV2Metric := fun _ => Except.ok () }

/-- The request struct `buildAlertV2MetricStruct` produces from
`sampleConfig` under `sampleMonitorClient`. -/
def sampleAlert : AlertV2Metric :=
  { common := { ID := 0, name := "high cpu", typ := "MANUAL" }
    config := { scopedSegmentedConfig := { scope := "agent.id = 1" }
                conditionOperator := ">"
                threshold := 90
                warningThreshold := some 70
                warningConditionOperator := ">"
                timeAggregation := "avg"
                groupAggregation := "max"
                metric := { ID := "ld-1", PublicID := "cpu.used.percent" }
                noDataBehaviour := "DO_NOTHING" } }

/-- The request struct built from `sampleConfigNoWarning`. -/
def sampleAlertNoWarning : AlertV2Metric :=
  { sampleAlert with
    config := { sampleAlert.config with
                warningThreshold := none
                warningConditionOperator := "" } }

example : buildAlertV2MetricStruct sampleConfig sampleMonitorClient =
    Except.ok sampleAlert := rfl

example : buildAlertV2MetricStruct sampleConfigNoWarning sampleMonitorClient =
    Except.ok sampleAlertNoWarning := rfl

/-- C2: building the request struct from a configuration and mapping it
back into state reproduces op, threshold, warning_threshold (when
present), metric, time_aggregation, group_aggregation and
no_data_behaviour, given that the metric lookup succeeds and returns the
descriptor whose public ID is the configured metric name. -/
theorem metric_alert_roundtrip (d : ResourceData) (client : SysdigMonitorClient)
    (ld : LabelDescriptorV3) (a : AlertV2Metric)
    (hlook : client.GetLabelDescriptor d.metric = Except.ok ld)
    (hpub : ld.labelDescriptor.PublicID = d.metric)
    (hbuild : buildAlertV2MetricStruct d client = Except.ok a) :
    (updateAlertV2MetricState d a).op = d.op ∧
    (updateAlertV2MetricState d a).threshold = d.threshold ∧
    (d.warning_threshold.isSome →
      (updateAlertV2MetricState d a).warning_threshold = d.warning_threshold) ∧
    (updateAlertV2MetricState d a).metric = d.metric ∧
    (updateAlertV2MetricState d a).time_aggregation = d.time_aggregation ∧
    (updateAlertV2MetricState d a).group_aggregation = d.group_aggregation ∧
    (updateAlertV2MetricState d a).no_data_behaviour = d.no_data_behaviour := by
  cases hw : d.warning_threshold with
  | none =>
    simp only [buildAlertV2MetricStruct, hlook, hw, Except.ok.injEq] at hbuild
    subst hbuild
    simp [updateAlertV2MetricState, updateAlertV2CommonState,
      updateScopedSegmentedConfigState, hpub, hw]
  | some wt =>
    simp only [buildAlertV2MetricStruct, hlook, hw, Except.ok.injEq] at hbuild
    subst hbuild
    simp [updateAlertV2MetricState, updateAlertV2CommonState,
      updateScopedSegmentedConfigState, hpub, hw]

/-- Witness for C2 at the concrete sample configuration. -/
theorem metric_alert_roundtrip_witness :
    (updateAlertV2MetricState sampleConfig sampleAlert).op = sampleConfig.op ∧
    (updateAlertV2MetricState sampleConfig sampleAlert).threshold = sampleConfig.threshold ∧
    (sampleConfig.warning_threshold.isSome →
      (updateAlertV2MetricState sampleConfig sampleAlert).warning_threshold =
        sampleConfig.warning_threshold) ∧
    (updateAlertV2MetricState sampleConfig sampleAlert).metric = sampleConfig.metric ∧
    (updateAlertV2MetricState sampleConfig sampleAlert).time_aggregation =
      sampleConfig.time_aggregation ∧
    (updateAlertV2MetricState sampleConfig sampleAlert).group_aggregation =
      sampleConfig.group_aggregation ∧
    (updateAlertV2MetricState sampleConfig sampleAlert).no_data_behaviour =
      sampleConfig.no_data_behaviour :=
  metric_alert_roundtrip sampleConfig sampleMonitorClient sampleDescriptor
    sampleAlert rfl rfl rfl

/-- C4: when `warning_threshold` is omitted, the built request struct has
a nil `WarningThreshold` and an empty `WarningConditionOperator`, and
mapping the struct back leaves the state's `warning_threshold` untouched
(no value is written). -/
theorem omitted_warning_threshold (d d2 : ResourceData)
    (client : SysdigMonitorClient) (a : AlertV2Metric)
    (hw : d.warning_threshold = none)
    (hbuild : buildAlertV2MetricStruct d client = Except.ok a) :
    a.config.warningThreshold = none ∧
    a.config.warningConditionOperator = "" ∧
    (updateAlertV2MetricState d2 a).warning_threshold = d2.warning_threshold := by
  cases hlook : client.GetLabelDescriptor d.metric with
  | error e => simp [buildAlertV2MetricStruct, hlook] at hbuild
  | ok ld =>
    simp only [buildAlertV2MetricStruct, hlook, hw, Except.ok.injEq] at hbuild
    subst hbuild
    simp [updateAlertV2MetricState, updateAlertV2CommonState,
      updateScopedSegmentedConfigState]

/-- Witness for C4 at the spec's scenario: `op = ">"`, `threshold = 90.0`,
`warning_threshold` omitted. -/
theorem omitted_warning_threshold_witness :
    sampleConfigNoWarning.op = ">" ∧
    sampleConfigNoWarning.threshold = 90 ∧
    (sampleAlertNoWarning.config.warningThreshold = none ∧
     sampleAlertNoWarning.config.warningConditionOperator = "" ∧
     (updateAlertV2MetricState sampleConfigNoWarning
         sampleAlertNoWarning).warning_threshold =
       sampleConfigNoWarning.warning_threshold) :=
  ⟨rfl, rfl,
    omitted_warning_threshold sampleConfigNoWarning sampleConfigNoWarning
      sampleMonitorClient sampleAlertNoWarning rfl rfl⟩

/-- C6: when the metric-name lookup fails, `buildAlertV2MetricStruct`
returns no alert struct and the lookup error wrapped with the metric name
as context. -/
theorem label_lookup_failure (d : ResourceData) (client : SysdigMonitorClient)
    (e : GoError) (hlook : client.GetLabelDescriptor d.metric = Except.error e) :
    buildAlertV2MetricStruct d client =
      Except.error
        (GoError.wrapped ("error getting descriptor for label " ++ d.metric) e) := by
  simp [buildAlertV2MetricStruct, hlook]

/-- A monitor client whose label-descriptor lookup fails. -/
def failingLookupClient : SysdigMonitorClient :=
  { sampleMonitorClient with
    GetLabelDescriptor := fun _ => Except.error (GoError.msg "missing descriptor") }

/-- Witness for C6 at a concrete failing lookup. -/
theorem label_lookup_failure_witness :
    buildAlertV2MetricStruct sampleConfig failingLookupClient =
      Except.error
        (GoError.wrapped "error getting descriptor for label cpu.used.percent"
          (GoError.msg "missing descriptor")) :=
  label_lookup_failure sampleConfig failingLookupClient
    (GoError.msg "missing descriptor") rfl

/-- C10: in every request struct the builder produces, a non-nil warning
threshold comes with a warning operator equal to the main condition
operator. -/
theorem warning_operator_invariant (d : ResourceData)
    (client : SysdigMonitorClient) (a : AlertV2Metric)
    (hbuild : buildAlertV2MetricStruct d client = Except.ok a)
    (hw : a.config.warningThreshold.isSome) :
    a.config.warningConditionOperator = a.config.conditionOperator := by
  cases hlook : client.GetLabelDescriptor d.metric with
  | error e => simp [buildAlertV2MetricStruct, hlook] at hbuild
  | ok ld =>
    cases hwt : d.warning_threshold with
    | none =>
      simp only [buildAlertV2MetricStruct, hlook, hwt, Except.ok.injEq] at hbuild
      subst hbuild
      simp at hw
    | some wt =>
      simp only [buildAlertV2MetricStruct, hlook, hwt, Except.ok.injEq] at hbuild
      subst hbuild
      rfl

/-- Witness for C10 at the concrete sample build. -/
theorem warning_operator_invariant_witness :
    sampleAlert.config.warningConditionOperator =
      sampleAlert.config.conditionOperator :=
  warning_operator_invariant sampleConfig sampleMonitorClient sampleAlert rfl rfl

/-- A stored state whose resource ID parses as 7. -/
def storedConfig : ResourceData := { sampleConfig with id := "7" }

/-- A stored state whose resource ID is not a decimal integer. -/
def badIdConfig : ResourceData := { sampleConfig with id := "not-a-number" }

/-- A monitor client whose `GetAlertV2MetricById` fails. -/
def getFailClient : SysdigMonitorClient :=
  { sampleMonitorClient with
    GetAlertV2MetricById := fun _ => Except.error (GoError.msg "timeout") }

/-- A monitor client whose `CreateAlertV2Metric` fails. -/
def createFailClient : SysdigMonitorClient :=
  { sampleMonitorClient with
    CreateAlertV2Metric := fun _ => Except.error (GoError.msg "quota exceeded") }

/-- C8: whatever error `GetAlertV2MetricById` returns, the Read handler
clears the resource ID and returns nil diagnostics. -/
theorem read_error_clears_id (d : ResourceData) (client : SysdigMonitorClient)
    (n : Int) (e : GoError)
    (hid : Atoi d.id = Except.ok n)
    (hget : client.GetAlertV2MetricById n = Except.error e) :
    resourceSysdigMonitorAlertV2MetricRead d (Except.ok client) =
      ⟨{ d with id := "" }, none⟩ := by
  simp [resourceSysdigMonitorAlertV2MetricRead, hid, hget]

/-- Witness for C8 at a concrete failing Get. -/
theorem read_error_clears_id_witness :
    resourceSysdigMonitorAlertV2MetricRead storedConfig (Except.ok getFailClient) =
      ⟨{ storedConfig with id := "" }, none⟩ :=
  read_error_clears_id storedConfig getFailClient 7 (GoError.msg "timeout") rfl rfl

/-- C9: on a stored ID that is not a decimal integer, the Update handler
discards the parse error and proceeds with alert ID 0, while the Read and
Delete handlers return the parse error as a diagnostic without calling any
client method (their outcome does not depend on the client). -/
theorem invalid_id_handlers (d : ResourceData) (client : SysdigMonitorClient)
    (hbad : parseGoInt d.id = none) :
    resourceSysdigMonitorAlertV2MetricUpdate d (Except.ok client) =
      (match buildAlertV2MetricStruct d client with
       | .error err => ⟨d, some err⟩
       | .ok a =>
         match client.UpdateAlertV2Metric
             { a with common := { a.common with ID := 0 } } with
         | .error err => ⟨d, some err⟩
         | .ok aUpdated => ⟨updateAlertV2MetricState d aUpdated, none⟩) ∧
    resourceSysdigMonitorAlertV2MetricRead d (Except.ok client) =
      ⟨d, some (GoError.msg
        ("strconv.Atoi: parsing \"" ++ d.id ++ "\": invalid syntax"))⟩ ∧
    resourceSysdigMonitorAlertV2MetricDelete d (Except.ok client) =
      ⟨d, some (GoError.msg
        ("strconv.Atoi: parsing \"" ++ d.id ++ "\": invalid syntax"))⟩ := by
  refine ⟨?_, ?_, ?_⟩
  · simp [resourceSysdigMonitorAlertV2MetricUpdate, atoiOrZero, hbad]
  · simp [resourceSysdigMonitorAlertV2MetricRead, Atoi, hbad]
  · simp [resourceSysdigMonitorAlertV2MetricDelete, Atoi, hbad]

/-- Witness for C9 at a concrete non-numeric stored ID. -/
theorem invalid_id_handlers_witness :
    resourceSysdigMonitorAlertV2MetricUpdate badIdConfig
        (Except.ok sampleMonitorClient) =
      (match buildAlertV2MetricStruct badIdConfig sampleMonitorClient with
       | .error err => ⟨badIdConfig, some err⟩
       | .ok a =>
         match sampleMonitorClient.UpdateAlertV2Metric
             { a with common := { a.common with ID := 0 } } with
         | .error err => ⟨badIdConfig, some err⟩
         | .ok aUpdated =>
           ⟨updateAlertV2MetricState badIdConfig aUpdated, none⟩) ∧
    resourceSysdigMonitorAlertV2MetricRead badIdConfig
        (Except.ok sampleMonitorClient) =
      ⟨badIdConfig, some (GoError.msg
        ("strconv.Atoi: parsing \"" ++ badIdConfig.id ++ "\": invalid syntax"))⟩ ∧
    resourceSysdigMonitorAlertV2MetricDelete badIdConfig
        (Except.ok sampleMonitorClient) =
      ⟨badIdConfig, some (GoError.msg
        ("strconv.Atoi: parsing \"" ++ badIdConfig.id ++ "\": invalid syntax"))⟩ :=
  invalid_id_handlers badIdConfig sampleMonitorClient rfl

/-- C3 counterexample: at a concrete input the Read handler receives a
client-method error from `GetAlertV2MetricById` yet returns nil
diagnostics (clearing the resource ID instead), so "every error returned
by the client method is forwarded as a diagnostic" fails for Read. -/
theorem read_swallows_error_counterexample :
    getFailClient.GetAlertV2MetricById 7 = Except.error (GoError.msg "timeout") ∧
    (resourceSysdigMonitorAlertV2MetricRead storedConfig
        (Except.ok getFailClient)).diags = none :=
  ⟨rfl, rfl⟩

/-- C3 (amended): in the Create, Update and Delete handlers every error
returned by a client method (`GetLabelDescriptor` during struct building,
`CreateAlertV2Metric`, `UpdateAlertV2Metric`, `DeleteAlertV2Metric`) is
converted into a descriptive error and forwarded as a Terraform
diagnostic, never retried or suppressed; the Read handler, on an error
from `GetAlertV2MetricById`, instead clears the resource ID and returns
nil diagnostics. -/
theorem handlers_surface_errors_amended (d : ResourceData)
    (client : SysdigMonitorClient) (e : GoError) :
    (client.GetLabelDescriptor d.metric = Except.error e →
      resourceSysdigMonitorAlertV2MetricCreate d (Except.ok client) =
        ⟨d, some (GoError.wrapped
          ("error getting descriptor for label " ++ d.metric) e)⟩ ∧
      resourceSysdigMonitorAlertV2MetricUpdate d (Except.ok client) =
        ⟨d, some (GoError.wrapped
          ("error getting descriptor for label " ++ d.metric) e)⟩) ∧
    (∀ a, buildAlertV2MetricStruct d client = Except.ok a →
      client.CreateAlertV2Metric a = Except.error e →
      resourceSysdigMonitorAlertV2MetricCreate d (Except.ok client) = ⟨d, some e⟩) ∧
    (∀ a, buildAlertV2MetricStruct d client = Except.ok a →
      client.UpdateAlertV2Metric
          { a with common := { a.common with ID := atoiOrZero d.id } } =
        Except.error e →
      resourceSysdigMonitorAlertV2MetricUpdate d (Except.ok client) = ⟨d, some e⟩) ∧
    (∀ n, Atoi d.id = Except.ok n →
      client.DeleteAlertV2Metric n = Except.error e →
      resourceSysdigMonitorAlertV2MetricDelete d (Except.ok client) = ⟨d, some e⟩) ∧
    (∀ n, Atoi d.id = Except.ok n →
      client.GetAlertV2MetricById n = Except.error e →
      resourceSysdigMonitorAlertV2MetricRead d (Except.ok client) =
        ⟨{ d with id := "" }, none⟩) := by
  refine ⟨fun hl => ⟨?_, ?_⟩, fun a hb hc => ?_, fun a hb hc => ?_,
    fun n hp hc => ?_, fun n hp hg => ?_⟩
  · simp [resourceSysdigMonitorAlertV2MetricCreate, buildAlertV2MetricStruct, hl]
  · simp [resourceSysdigMonitorAlertV2MetricUpdate, buildAlertV2MetricStruct, hl]
  · simp [resourceSysdigMonitorAlertV2MetricCreate, hb, hc]
  · simp [resourceSysdigMonitorAlertV2MetricUpdate, hb, hc]
  · simp [resourceSysdigMonitorAlertV2MetricDelete, hp, hc]
  · simp [resourceSysdigMonitorAlertV2MetricRead, hp, hg]

/-- Witness for the amended C3: a failing `GetLabelDescriptor` and a
failing `CreateAlertV2Metric` both surface as diagnostics, while a
failing `GetAlertV2MetricById` in Read yields nil diagnostics with a
cleared ID. -/
theorem handlers_surface_errors_amended_witness :
    resourceSysdigMonitorAlertV2MetricCreate sampleConfig
        (Except.ok failingLookupClient) =
      ⟨sampleConfig, some
        (GoError.wrapped "error getting descriptor for label cpu.used.percent"
          (GoError.msg "missing descriptor"))⟩ ∧
    resourceSysdigMonitorAlertV2MetricCreate sampleConfig
        (Except.ok createFailClient) =
      ⟨sampleConfig, some (GoError.msg "quota exceeded")⟩ ∧
    resourceSysdigMonitorAlertV2MetricRead storedConfig
        (Except.ok getFailClient) =
      ⟨{ storedConfig with id := "" }, none⟩ := by
  obtain ⟨hLookup, -⟩ :=
    handlers_surface_errors_amended sampleConfig failingLookupClient
      (GoError.msg "missing descriptor")
  obtain ⟨-, hCreate, -⟩ :=
    handlers_surface_errors_amended sampleConfig createFailClient
      (GoError.msg "quota exceeded")
  obtain ⟨-, -, -, -, hRead⟩ :=
    handlers_surface_errors_amended storedConfig getFailClient
      (GoError.msg "timeout")
  exact ⟨(hLookup rfl).1, hCreate sampleAlert rfl rfl, hRead 7 rfl rfl⟩
